import Mathlib

/-!
Verification of the ColouringBook generation-and-assembly pipeline
(`src/src/App.tsx`): a shallow embedding of the generation orchestrator
(`generateSinglePage`, `handleGenerate`), the color parser (`hexToRgb`)
and the document assembler (`downloadPDF`), together with theorems about
their contracts.
-/

/-- One content part of a model response; `inlineData` holds the base64
image payload when present (`part.inlineData` in the source). -/
structure RespPart where
  inlineData : Option String
deriving DecidableEq, Repr

/-- A generated coloring page (`interface GeneratedPage` in the source). -/
structure GeneratedPage where
  id : Nat
  base64 : String
  prompt : String
deriving DecidableEq, Repr

/-- The five prompt variation templates built inside `generateSinglePage`. -/
def variations (userTheme : String) : List String :=
  [ "A main character " ++ userTheme ++ " coloring page",
    "A scenic background of " ++ userTheme ++ " coloring page",
    "An action scene with " ++ userTheme ++ " coloring page",
    "A close up detail of " ++ userTheme ++ " coloring page",
    "A group of characters in " ++ userTheme ++ " coloring page" ]

/-- The prompt sent for a page: the fixed outer template with the variation
selected by `pageIndex % variations.length` spliced in (`const prompt = ...`
in `generateSinglePage`). -/
def promptFor (pageIndex : Nat) (userTheme : String) : String :=
  "Black and white coloring book page for children. Simple line art, thick black outlines, no shading, no gradients, white background. Subject: "
    ++ (variations userTheme).getD (pageIndex % (variations userTheme).length) ""
    ++ ". High contrast, easy to color."

/-- The extraction loop over `response.candidates[0].content.parts`:
starting from the empty string, take the first part with `inlineData`,
form the data URL, and break. -/
def extractBase64 : List RespPart → String
  | [] => ""
  | p :: ps =>
    match p.inlineData with
    | some d => "data:image/png;base64," ++ d
    | none => extractBase64 ps

/-- `generateSinglePage(pageIndex, userTheme)` with the external response
made explicit as its list of parts: build the prompt, extract the first
inline payload, fail when none is found, otherwise return the page. -/
def generateSinglePage (pageIndex : Nat) (userTheme : String)
    (parts : List RespPart) : Except String GeneratedPage :=
  let prompt := promptFor pageIndex userTheme
  let base64 := extractBase64 parts
  if base64 = "" then Except.error "No image data received from AI"
  else Except.ok { id := pageIndex, base64 := base64, prompt := prompt }

/-- Modelled from the spec (section 4.1 prompt construction rule): the five
variation clauses as the spec words them, selected by page index. Used only
to compare the source's prompt builder against the spec. -/
def specVariation (k : Nat) (theme : String) : String :=
  match k with
  | 0 => "A main character " ++ theme ++ " coloring page"
  | 1 => "A scenic background of " ++ theme ++ " coloring page"
  | 2 => "An action scene with " ++ theme ++ " coloring page"
  | 3 => "A close up detail of " ++ theme ++ " coloring page"
  | 4 => "A group of characters in " ++ theme ++ " coloring page"
  | _ => ""

/-- Modelled from the spec (section 4.1): the fixed outer template around a
variation clause — black-and-white line art, thick black outlines, no
shading, no gradients, white background, high contrast, easy to color. -/
def specOuter (subject : String) : String :=
  "Black and white coloring book page for children. Simple line art, thick black outlines, no shading, no gradients, white background. Subject: "
    ++ subject ++ ". High contrast, easy to color."

/-- Observable trace of one `handleGenerate` run: the page indices whose
requests were issued, the `setProgress` values reported inside the loop,
the final `newPages` snapshot (the last `setPages` argument), and whether
the run ended in the catch block. -/
structure RunTrace where
  requests : List Nat
  progressReports : List ℚ
  newPages : List GeneratedPage
  failed : Bool
deriving DecidableEq, Repr

/-- The `for (let i = 0; i < pageCount; i++)` loop of `handleGenerate`,
with the external service made explicit as `oracle` (the response parts for
each page index). `k` is the number of iterations left, `i` the current
index, `acc` the `newPages` array accumulated so far. A successful request
appends the page, reports progress `((i+1)/pageCount)*100` and continues; a
thrown error aborts the loop. -/
def genLoopAux (oracle : Nat → List RespPart) (theme : String) (pageCount : Nat) :
    Nat → Nat → List GeneratedPage → RunTrace
  | 0, _, acc => { requests := [], progressReports := [], newPages := acc, failed := false }
  | k + 1, i, acc =>
    match generateSinglePage i theme (oracle i) with
    | Except.ok page =>
      let t := genLoopAux oracle theme pageCount k (i + 1) (acc ++ [page])
      { requests := i :: t.requests,
        progressReports := (((i : ℚ) + 1) / (pageCount : ℚ) * 100) :: t.progressReports,
        newPages := t.newPages,
        failed := t.failed }
    | Except.error _ =>
      { requests := [i], progressReports := [], newPages := acc, failed := true }

/-- The whole generation loop of `handleGenerate`, started at index 0 with
an empty `newPages` array. -/
def genLoop (oracle : Nat → List RespPart) (theme : String) (pageCount : Nat) : RunTrace :=
  genLoopAux oracle theme pageCount pageCount 0 []

/-- The React state touched by `handleGenerate`, plus the form fields it
reads. -/
structure AppState where
  childName : String
  theme : String
  pageCount : Nat
  pages : List GeneratedPage
  progress : ℚ
  error : Option String
  isGenerating : Bool
deriving DecidableEq, Repr

/-- The message set by the catch block of `handleGenerate`. -/
def errorMessage : String :=
  "Oops! Something went wrong while generating the coloring book. Please try again."

/-- `handleGenerate`: return immediately when `childName` or `theme` is
empty; otherwise reset state, run the generation loop, and finish with the
last pages snapshot, the last progress value (0 when none was reported),
the catch-block error message on failure, and `isGenerating` back to
false. Returns the new state together with the run's trace. -/
def handleGenerate (oracle : Nat → List RespPart) (s : AppState) : AppState × RunTrace :=
  if s.childName = "" ∨ s.theme = "" then
    (s, { requests := [], progressReports := [], newPages := [], failed := false })
  else
    let t := genLoop oracle s.theme s.pageCount
    ({ s with
        pages := t.newPages,
        progress := t.progressReports.getLastD 0,
        error := if t.failed then some errorMessage else none,
        isGenerating := false },
     t)

/-- The render guard of the results section (line 606 of the source): the
page previews and the Download PDF button are shown exactly when `pages`
is non-empty. -/
def resultsVisible (s : AppState) : Bool :=
  decide (0 < s.pages.length)

/-- The digit table of `parseInt(_, 16)`: both lower and upper case are
accepted. -/
def hexDigitValues : List (Char × Nat) :=
  [ ('0', 0), ('1', 1), ('2', 2), ('3', 3), ('4', 4),
    ('5', 5), ('6', 6), ('7', 7), ('8', 8), ('9', 9),
    ('a', 10), ('b', 11), ('c', 12), ('d', 13), ('e', 14), ('f', 15),
    ('A', 10), ('B', 11), ('C', 12), ('D', 13), ('E', 14), ('F', 15) ]

/-- Value of a single hexadecimal digit, as consumed by `parseInt(_, 16)`. -/
def hexVal (c : Char) : Option Nat :=
  (hexDigitValues.find? (fun p => p.fst == c)).map (fun p => p.snd)

/-- Accumulate the longest leading run of hex digits, as `parseInt(_, 16)`
does once at least one digit has been seen. -/
def parseIntCore16 : List Char → Nat → Nat
  | [], acc => acc
  | c :: cs, acc =>
    match hexVal c with
    | some v => parseIntCore16 cs (acc * 16 + v)
    | none => acc

/-- JavaScript `parseInt(s, 16)`: `none` models the NaN returned when the
string does not start with a hex digit; otherwise the value of the longest
leading run of hex digits. -/
def parseInt16 (s : String) : Option Nat :=
  match s.toList with
  | [] => none
  | c :: _ =>
    match hexVal c with
    | none => none
    | some _ => some (parseIntCore16 s.toList 0)

/-- `String.prototype.slice(a, b)` for the in-range indices used by
`hexToRgb`. -/
def jsSlice (s : String) (a b : Nat) : String :=
  String.mk ((s.toList.drop a).take (b - a))

/-- A color channel triple as produced by `hexToRgb`; `none` models NaN. -/
abbrev Col := Option Nat × Option Nat × Option Nat

/-- `hexToRgb` from the source: parse the three hex digit pairs of a
`#rrggbb` string. -/
def hexToRgb (hex : String) : Col :=
  (parseInt16 (jsSlice hex 1 3), parseInt16 (jsSlice hex 3 5), parseInt16 (jsSlice hex 5 7))

/-- One drawing primitive issued to the jsPDF document, with the graphic
state (font size, colors, the optional fourth color channel, centering)
recorded at the point of the call. -/
inductive DrawCmd where
  | fillRect (x y w h : ℚ) (color : Col)
  | strokeRect (x y w h : ℚ) (color : Col)
  | text (s : String) (x y : ℚ) (size : Nat) (color : Col) (ch4 : Option ℚ) (centered : Bool)
  | image (data : String) (x y w h : ℚ)
deriving DecidableEq, Repr

/-- Whether a drawing primitive places an image. -/
def DrawCmd.isImage : DrawCmd → Bool
  | DrawCmd.image _ _ _ _ _ => true
  | _ => false

/-- The cover page of `downloadPDF`: background fill, the two title lines,
the theme line, the first generated image as preview when any page exists,
and the footer caption. -/
def coverCmds (pw ph : ℚ) (bgRgb textRgb : Col) (childName theme : String)
    (pages : List GeneratedPage) : List DrawCmd :=
  [ DrawCmd.fillRect 0 0 pw ph bgRgb,
    DrawCmd.text (childName ++ "\x27s") (pw / 2) 80 32 textRgb none true,
    DrawCmd.text "Coloring Book" (pw / 2) 105 48 textRgb none true,
    DrawCmd.text ("Theme: " ++ theme) (pw / 2) 130 18 textRgb (some (7 / 10)) true ]
  ++ (match pages with
      | [] => []
      | p :: _ => [DrawCmd.image p.base64 (pw / 4) 150 (pw / 2) (pw / 2)])
  ++ [ DrawCmd.text "Generated with AI Magic" (pw / 2) (ph - 20) 12 textRgb (some (1 / 2)) true ]

/-- One coloring page of `downloadPDF`: the gray border, the square image
filling most of the interior, and the per-page footer. -/
def coloringPageCmds (pw ph : ℚ) (childName : String) (page : GeneratedPage) : List DrawCmd :=
  [ DrawCmd.strokeRect 10 10 (pw - 20) (ph - 20) (some 200, some 200, some 200),
    DrawCmd.image page.base64 20 ((ph - (pw - 40)) / 2) (pw - 40) (pw - 40),
    DrawCmd.text ("Page for " ++ childName) (pw / 2) (ph - 15) 10
      (some 150, some 150, some 150) none true ]

/-- `downloadPDF` with the page size of the renderer made explicit: the
cover followed by one page per generated page, in order, together with the
filename passed to `doc.save`. -/
def downloadPDF (pw ph : ℚ) (bgColor textColor childName theme : String)
    (pages : List GeneratedPage) : List (List DrawCmd) × String :=
  let bgRgb := hexToRgb bgColor
  let textRgb := hexToRgb textColor
  (coverCmds pw ph bgRgb textRgb childName theme pages
      :: pages.map (coloringPageCmds pw ph childName),
   childName ++ "_Coloring_Book.pdf")

/-- Default page used only as the fallback of list lookups in statements. -/
def defaultPage : GeneratedPage :=
  { id := 0, base64 := "", prompt := "" }

/-- A service that answers every request with one inline payload. -/
def okOracle : Nat → List RespPart :=
  fun _ => [{ inlineData := some "IMG" }]

/-- A service whose response for page index 1 carries no inline payload. -/
def failOracle : Nat → List RespPart :=
  fun i => if i = 1 then [] else [{ inlineData := some "IMG" }]

theorem promptFor_eq_getD (i : Nat) (theme : String) :
    promptFor i theme = specOuter ((variations theme).getD (i % 5) "") := rfl

/-- C2: for every page index `i` and theme, the prompt equals the fixed outer
template with the variation clause selected by `i % 5` and the theme
interpolated verbatim; in particular the prompt for index 5 repeats the
variation of index 0. -/
theorem prompt_matches_spec_template (i : Nat) (theme : String) :
    promptFor i theme = specOuter (specVariation (i % 5) theme) ∧
    promptFor 5 theme = promptFor 0 theme := by
  constructor
  · rw [promptFor_eq_getD]
    have h : i % 5 = 0 ∨ i % 5 = 1 ∨ i % 5 = 2 ∨ i % 5 = 3 ∨ i % 5 = 4 := by omega
    rcases h with h | h | h | h | h <;> rw [h] <;> rfl
  · rw [promptFor_eq_getD 5, promptFor_eq_getD 0]

theorem genLoopAux_all_ok (oracle : Nat → List RespPart) (theme : String) (n : Nat) :
    ∀ k i acc, (∀ j, i ≤ j → j < i + k → extractBase64 (oracle j) ≠ "") →
    genLoopAux oracle theme n k i acc =
      { requests := List.range' i k,
        progressReports := (List.range' i k).map (fun (j : Nat) => ((j : ℚ) + 1) / (n : ℚ) * 100),
        newPages := acc ++ (List.range' i k).map
          (fun j => { id := j, base64 := extractBase64 (oracle j), prompt := promptFor j theme }),
        failed := false } := by
  intro k
  induction k with
  | zero => intro i acc _; simp [genLoopAux]
  | succ m ih =>
    intro i acc h
    have hi : extractBase64 (oracle i) ≠ "" := h i (Nat.le_refl i) (by omega)
    have hstep : generateSinglePage i theme (oracle i) =
        Except.ok { id := i, base64 := extractBase64 (oracle i), prompt := promptFor i theme } := by
      simp [generateSinglePage, hi]
    rw [genLoopAux, hstep]
    dsimp only
    have key := ih (i + 1)
      (acc ++ [{ id := i, base64 := extractBase64 (oracle i), prompt := promptFor i theme }])
      (fun j hj1 hj2 => h j (by omega) (by omega))
    rw [key]
    simp [List.range'_succ]

theorem genLoopAux_fail (oracle : Nat → List RespPart) (theme : String) (n : Nat) :
    ∀ k i acc j, i ≤ j → j < i + k →
    (∀ l, i ≤ l → l < j → extractBase64 (oracle l) ≠ "") →
    extractBase64 (oracle j) = "" →
    genLoopAux oracle theme n k i acc =
      { requests := List.range' i (j - i + 1),
        progressReports := (List.range' i (j - i)).map (fun (l : Nat) => ((l : ℚ) + 1) / (n : ℚ) * 100),
        newPages := acc ++ (List.range' i (j - i)).map
          (fun l => { id := l, base64 := extractBase64 (oracle l), prompt := promptFor l theme }),
        failed := true } := by
  intro k
  induction k with
  | zero => intro i acc j h1 h2; omega
  | succ m ih =>
    intro i acc j h1 h2 hok hfail
    by_cases hij : i = j
    · subst hij
      have hstep : generateSinglePage i theme (oracle i) =
          Except.error "No image data received from AI" := by
        simp [generateSinglePage, hfail]
      rw [genLoopAux, hstep]
      dsimp only
      simp [List.range'_succ]
    · have hlt : i < j := by omega
      have hi : extractBase64 (oracle i) ≠ "" := hok i (Nat.le_refl i) hlt
      have hstep : generateSinglePage i theme (oracle i) =
          Except.ok { id := i, base64 := extractBase64 (oracle i), prompt := promptFor i theme } := by
        simp [generateSinglePage, hi]
      rw [genLoopAux, hstep]
      dsimp only
      have key := ih (i + 1)
        (acc ++ [{ id := i, base64 := extractBase64 (oracle i), prompt := promptFor i theme }])
        j (by omega) (by omega) (fun l hl1 hl2 => hok l (by omega) hl2) hfail
      rw [key]
      have hr1 : List.range' i (j - i + 1) = i :: List.range' (i + 1) (j - (i + 1) + 1) := by
        have : j - i + 1 = (j - (i + 1) + 1) + 1 := by omega
        rw [this, List.range'_succ]
      have hr2 : List.range' i (j - i) = i :: List.range' (i + 1) (j - (i + 1)) := by
        have : j - i = (j - (i + 1)) + 1 := by omega
        rw [this, List.range'_succ]
      simp [hr1, hr2]

/-- C1: for every pageCount in [1,5] and non-empty theme, when every request
succeeds the run issues exactly `pageCount` requests and the resulting
sequence has `pageCount` pages whose ids are `0..pageCount-1` in ascending
order. -/
theorem generate_success_counts (oracle : Nat → List RespPart) (theme : String) (n : Nat)
    (hn1 : 1 ≤ n) (hn5 : n ≤ 5) (htheme : theme ≠ "")
    (hok : ∀ j, j < n → extractBase64 (oracle j) ≠ "") :
    (genLoop oracle theme n).requests = List.range n ∧
    (genLoop oracle theme n).newPages.length = n ∧
    (genLoop oracle theme n).newPages.map GeneratedPage.id = List.range n := by
  have key := genLoopAux_all_ok oracle theme n n 0 [] (fun j hj1 hj2 => hok j (by omega))
  unfold genLoop
  rw [key]
  refine ⟨by rw [List.range_eq_range'], by simp, ?_⟩
  simp only [List.nil_append, List.map_map]
  rw [List.range_eq_range']
  have : (GeneratedPage.id ∘ fun j =>
      ({ id := j, base64 := extractBase64 (oracle j), prompt := promptFor j theme } : GeneratedPage))
      = fun j => j := rfl
  rw [this, List.map_id']

theorem generate_success_counts_witness :
    (genLoop okOracle "Dinosaurs" 3).requests = List.range 3 ∧
    (genLoop okOracle "Dinosaurs" 3).newPages.length = 3 ∧
    (genLoop okOracle "Dinosaurs" 3).newPages.map GeneratedPage.id = List.range 3 :=
  generate_success_counts okOracle "Dinosaurs" 3 (by omega) (by omega) (by decide)
    (fun j hj => by simp [okOracle, extractBase64])

/-- C3: when the request at index `j` is the first to fail, exactly the
requests `0..j` are issued, none beyond `j`, the run is marked failed, and
`handleGenerate` surfaces the catch-block error to the caller. -/
theorem first_failure_aborts (oracle : Nat → List RespPart) (theme : String) (n j : Nat)
    (hj : j < n) (hok : ∀ l, l < j → extractBase64 (oracle l) ≠ "")
    (hfail : extractBase64 (oracle j) = "") :
    (genLoop oracle theme n).requests = List.range (j + 1) ∧
    (∀ r ∈ (genLoop oracle theme n).requests, r ≤ j) ∧
    (genLoop oracle theme n).failed = true ∧
    (∀ s : AppState, s.childName ≠ "" → s.theme = theme → s.theme ≠ "" → s.pageCount = n →
      (handleGenerate oracle s).1.error = some errorMessage) := by
  have key := genLoopAux_fail oracle theme n n 0 [] j (by omega) (by omega)
    (fun l hl1 hl2 => hok l hl2) hfail
  refine ⟨?_, ?_, ?_, ?_⟩
  · unfold genLoop
    rw [key, List.range_eq_range']
    norm_num
  · intro r hr
    unfold genLoop at hr
    rw [key] at hr
    simp only [Nat.sub_zero, List.mem_range'_1] at hr
    omega
  · unfold genLoop
    rw [key]
  · intro s h1 h2 h3 h4
    unfold handleGenerate
    rw [if_neg (by simp [h1, h3])]
    simp only [h2, h4]
    unfold genLoop
    rw [key]
    simp

/-- C9: when the recipient name or the theme is empty, `handleGenerate`
returns at once: no request is issued and the state is unchanged. -/
theorem empty_fields_no_op (oracle : Nat → List RespPart) (s : AppState)
    (h : s.childName = "" ∨ s.theme = "") :
    handleGenerate oracle s =
      (s, { requests := [], progressReports := [], newPages := [], failed := false }) := by
  unfold handleGenerate
  rw [if_pos h]

theorem empty_fields_no_op_witness :
    handleGenerate okOracle
        { childName := "", theme := "Dinosaurs", pageCount := 3, pages := [],
          progress := 0, error := none, isGenerating := false } =
      ({ childName := "", theme := "Dinosaurs", pageCount := 3, pages := [],
         progress := 0, error := none, isGenerating := false },
       { requests := [], progressReports := [], newPages := [], failed := false }) :=
  empty_fields_no_op okOracle _ (Or.inl rfl)

theorem first_failure_aborts_witness :
    (genLoop failOracle "Dinosaurs" 3).requests = List.range (1 + 1) ∧
    (∀ r ∈ (genLoop failOracle "Dinosaurs" 3).requests, r ≤ 1) ∧
    (genLoop failOracle "Dinosaurs" 3).failed = true ∧
    (∀ s : AppState, s.childName ≠ "" → s.theme = "Dinosaurs" → s.theme ≠ "" → s.pageCount = 3 →
      (handleGenerate failOracle s).1.error = some errorMessage) :=
  first_failure_aborts failOracle "Dinosaurs" 3 1 (by omega)
    (fun l hl => by
      have hl0 : l = 0 := by omega
      subst hl0
      decide)
    (by decide)

/-- C5: in a run of `n ≥ 1` pages where every request succeeds, exactly one
progress value is reported per page, the value reported after completing
page `k` (1-based) is exactly `(k/n)*100`, the final value is 100, and the
reported values are strictly increasing (so never duplicated or out of
order). -/
theorem progress_reports_exact (oracle : Nat → List RespPart) (theme : String) (n : Nat)
    (hn : 1 ≤ n) (hok : ∀ j, j < n → extractBase64 (oracle j) ≠ "") :
    (genLoop oracle theme n).progressReports.length = n ∧
    (∀ k, 1 ≤ k → k ≤ n →
      (genLoop oracle theme n).progressReports.getD (k - 1) 0 = (k : ℚ) / (n : ℚ) * 100) ∧
    (genLoop oracle theme n).progressReports.getLast? = some 100 ∧
    (genLoop oracle theme n).progressReports.Pairwise (fun a b => a < b) := by
  have key := genLoopAux_all_ok oracle theme n n 0 [] (fun j hj1 hj2 => hok j (by omega))
  unfold genLoop
  rw [key]
  have hrange : List.range' 0 n = List.range n := (List.range_eq_range' n).symm
  rw [hrange]
  have hn0 : (0 : ℚ) < (n : ℚ) := by exact_mod_cast hn
  refine ⟨by simp, ?_, ?_, ?_⟩
  · intro k hk1 hkn
    have hlt : k - 1 < n := by omega
    rw [List.getD_eq_getElem?_getD, List.getElem?_map, List.getElem?_range hlt]
    have hcast : ((k - 1 : ℕ) : ℚ) + 1 = (k : ℚ) := by
      rw [Nat.cast_sub hk1]
      push_cast
      ring
    simp [hcast]
  · obtain ⟨m, rfl⟩ : ∃ m, n = m + 1 := ⟨n - 1, by omega⟩
    dsimp only
    rw [List.range_succ, List.map_append]
    simp only [List.map_cons, List.map_nil]
    rw [List.getLast?_concat]
    have hval : ((m : ℚ) + 1) / ((m + 1 : ℕ) : ℚ) * 100 = 100 := by
      push_cast
      rw [div_self (by positivity), one_mul]
    rw [hval]
  · dsimp only
    have hbase : (List.range n).Pairwise (fun a b => a < b) := List.pairwise_lt_range n
    refine hbase.map _ ?_
    intro a b hab
    have hab' : ((a : ℚ) + 1) < ((b : ℚ) + 1) := by
      have : (a : ℚ) < (b : ℚ) := by exact_mod_cast hab
      linarith
    have h2 : ((a : ℚ) + 1) / (n : ℚ) < ((b : ℚ) + 1) / (n : ℚ) :=
      (div_lt_div_iff_of_pos_right hn0).mpr hab'
    exact mul_lt_mul_of_pos_right h2 (by norm_num)

theorem progress_reports_exact_witness :
    (genLoop okOracle "Dinosaurs" 3).progressReports.length = 3 ∧
    (∀ k, 1 ≤ k → k ≤ 3 →
      (genLoop okOracle "Dinosaurs" 3).progressReports.getD (k - 1) 0 = (k : ℚ) / (3 : ℚ) * 100) ∧
    (genLoop okOracle "Dinosaurs" 3).progressReports.getLast? = some 100 ∧
    (genLoop okOracle "Dinosaurs" 3).progressReports.Pairwise (fun a b => a < b) :=
  progress_reports_exact okOracle "Dinosaurs" 3 (by omega)
    (fun j hj => by simp [okOracle, extractBase64])

/-- C6: the orchestrator keeps exactly the first inline payload among the
response parts, discarding later ones, and a single request fails precisely
when the response has no inline payload. -/
theorem extraction_first_inline (parts : List RespPart) (i : Nat) (theme : String) :
    extractBase64 parts = (match parts.findSome? RespPart.inlineData with
      | some d => "data:image/png;base64," ++ d
      | none => "") ∧
    ((∃ e, generateSinglePage i theme parts = Except.error e) ↔
      parts.findSome? RespPart.inlineData = none) := by
  have hfs : extractBase64 parts = (match parts.findSome? RespPart.inlineData with
      | some d => "data:image/png;base64," ++ d
      | none => "") := by
    induction parts with
    | nil => rfl
    | cons p ps ih =>
      cases hp : p.inlineData with
      | none => simpa [extractBase64, List.findSome?_cons, hp] using ih
      | some d => simp [extractBase64, List.findSome?_cons, hp]
  refine ⟨hfs, ?_⟩
  cases hcase : parts.findSome? RespPart.inlineData with
  | none =>
    have hempty : extractBase64 parts = "" := by rw [hfs, hcase]
    simp [generateSinglePage, hempty]
  | some d =>
    have hne : extractBase64 parts ≠ "" := by
      rw [hfs, hcase]
      intro hcontra
      have hlen := congrArg String.length hcontra
      rw [String.length_append] at hlen
      simp at hlen
      exact absurd hlen.1 (by decide)
    simp [generateSinglePage, hne]

set_option maxRecDepth 8000 in
/-- C4 is false on the code: with page 1 of 3 failing, the run surfaces the
error yet the page generated before the failure stays in the `pages` state,
the results section with the Download PDF button is rendered, and applying
the assembler to that state yields a 2-page partial document. -/
theorem partial_run_assembled_cex :
    ((handleGenerate failOracle
        { childName := "Aaru", theme := "Dinosaurs", pageCount := 3, pages := [],
          progress := 0, error := none, isGenerating := false }).1.error = some errorMessage) ∧
    ((handleGenerate failOracle
        { childName := "Aaru", theme := "Dinosaurs", pageCount := 3, pages := [],
          progress := 0, error := none, isGenerating := false }).1.pages =
      [{ id := 0, base64 := "data:image/png;base64,IMG", prompt := promptFor 0 "Dinosaurs" }]) ∧
    (resultsVisible (handleGenerate failOracle
        { childName := "Aaru", theme := "Dinosaurs", pageCount := 3, pages := [],
          progress := 0, error := none, isGenerating := false }).1 = true) ∧
    ((downloadPDF 210 297 "#f5f5f0" "#282828" "Aaru" "Dinosaurs"
        (handleGenerate failOracle
          { childName := "Aaru", theme := "Dinosaurs", pageCount := 3, pages := [],
            progress := 0, error := none, isGenerating := false }).1.pages).1.length = 2) := by
  decide

/-- C4 (amended): for every failed run, the error is surfaced and no page
past the failure point exists, but the pages generated before the failure
remain in the visible `pages` state; the results section (and with it the
assembler) is available exactly when that partial sequence is non-empty,
and assembling it yields a partial document of `j + 1` pages (cover plus
the `j` pages generated before the failure). -/
theorem partial_run_assembled (oracle : Nat → List RespPart) (s : AppState) (j : Nat)
    (pw ph : ℚ) (bg tc : String)
    (hname : s.childName ≠ "") (htheme : s.theme ≠ "")
    (hj : j < s.pageCount)
    (hok : ∀ l, l < j → extractBase64 (oracle l) ≠ "")
    (hfail : extractBase64 (oracle j) = "") :
    ((handleGenerate oracle s).1.error = some errorMessage) ∧
    ((handleGenerate oracle s).1.pages.map GeneratedPage.id = List.range j) ∧
    (resultsVisible (handleGenerate oracle s).1 = decide (0 < j)) ∧
    ((downloadPDF pw ph bg tc (handleGenerate oracle s).1.childName
        (handleGenerate oracle s).1.theme
        (handleGenerate oracle s).1.pages).1.length = j + 1) := by
  have key := genLoopAux_fail oracle s.theme s.pageCount s.pageCount 0 [] j (by omega)
    (by omega) (fun l hl1 hl2 => hok l hl2) hfail
  have hstate : (handleGenerate oracle s).1 =
      { s with
          pages := (List.range' 0 j).map
            (fun l => { id := l, base64 := extractBase64 (oracle l), prompt := promptFor l s.theme }),
          progress := ((List.range' 0 j).map
            (fun (l : Nat) => ((l : ℚ) + 1) / (s.pageCount : ℚ) * 100)).getLastD 0,
          error := some errorMessage,
          isGenerating := false } := by
    unfold handleGenerate genLoop
    rw [if_neg (by simp [hname, htheme])]
    rw [key]
    simp
  rw [hstate]
  refine ⟨rfl, ?_, ?_, ?_⟩
  · simp only [List.map_map]
    rw [List.range_eq_range']
    have hid : (GeneratedPage.id ∘ fun l =>
        ({ id := l, base64 := extractBase64 (oracle l), prompt := promptFor l s.theme } : GeneratedPage))
        = fun l => l := rfl
    rw [hid, List.map_id']
  · simp [resultsVisible]
  · simp [downloadPDF]

theorem partial_run_assembled_witness :
    ((handleGenerate failOracle
        { childName := "Aaru", theme := "Dinosaurs", pageCount := 3, pages := [],
          progress := 0, error := none, isGenerating := false }).1.error = some errorMessage) ∧
    ((handleGenerate failOracle
        { childName := "Aaru", theme := "Dinosaurs", pageCount := 3, pages := [],
          progress := 0, error := none, isGenerating := false }).1.pages.map GeneratedPage.id =
      List.range 1) ∧
    (resultsVisible (handleGenerate failOracle
        { childName := "Aaru", theme := "Dinosaurs", pageCount := 3, pages := [],
          progress := 0, error := none, isGenerating := false }).1 = decide (0 < 1)) ∧
    ((downloadPDF 210 297 "#f5f5f0" "#282828"
        (handleGenerate failOracle
          { childName := "Aaru", theme := "Dinosaurs", pageCount := 3, pages := [],
            progress := 0, error := none, isGenerating := false }).1.childName
        (handleGenerate failOracle
          { childName := "Aaru", theme := "Dinosaurs", pageCount := 3, pages := [],
            progress := 0, error := none, isGenerating := false }).1.theme
        (handleGenerate failOracle
          { childName := "Aaru", theme := "Dinosaurs", pageCount := 3, pages := [],
            progress := 0, error := none, isGenerating := false }).1.pages).1.length = 1 + 1) :=
  partial_run_assembled failOracle
    { childName := "Aaru", theme := "Dinosaurs", pageCount := 3, pages := [],
      progress := 0, error := none, isGenerating := false } 1 210 297 "#f5f5f0" "#282828"
    (by decide) (by decide) (by decide)
    (fun l hl => by
      have hl0 : l = 0 := by omega
      subst hl0
      decide)
    (by decide)

/-- C7: the assembled document is exactly one cover page followed by one
image page per generated page, in index order: its length is
`pages.length + 1`, its first page is the cover, its `(i+1)`-th page is the
image page of `pages[i]`, the cover is produced even for empty `pages` and
then contains no image placement. -/
theorem assemble_document_structure (pw ph : ℚ) (bg tc nm th : String)
    (pages : List GeneratedPage) :
    (downloadPDF pw ph bg tc nm th pages).1.length = pages.length + 1 ∧
    (downloadPDF pw ph bg tc nm th pages).1.getD 0 [] =
      coverCmds pw ph (hexToRgb bg) (hexToRgb tc) nm th pages ∧
    (∀ i, i < pages.length →
      (downloadPDF pw ph bg tc nm th pages).1.getD (i + 1) [] =
        coloringPageCmds pw ph nm (pages.getD i defaultPage)) ∧
    (pages = [] → ∀ c ∈ (downloadPDF pw ph bg tc nm th pages).1.getD 0 [],
      c.isImage = false) := by
  refine ⟨by simp [downloadPDF], by simp [downloadPDF], ?_, ?_⟩
  · intro i hi
    show (coverCmds pw ph (hexToRgb bg) (hexToRgb tc) nm th pages
        :: pages.map (coloringPageCmds pw ph nm)).getD (i + 1) [] = _
    rw [List.getD_cons_succ]
    rw [List.getD_eq_getElem?_getD, List.getElem?_map, List.getElem?_eq_getElem hi]
    rw [List.getD_eq_getElem?_getD, List.getElem?_eq_getElem hi]
    rfl
  · intro hpages c hc
    subst hpages
    simp [downloadPDF, coverCmds] at hc
    rcases hc with rfl | rfl | rfl | rfl | rfl <;> rfl

/-- C8: assembly is a deterministic pure function of the generated pages and
the cover style: two invocations on identical inputs produce the identical
document (all text, positions and image placements) and filename. -/
theorem assemble_deterministic (pw ph : ℚ) (bg tc nm th bg2 tc2 nm2 th2 : String)
    (pages pages2 : List GeneratedPage)
    (h1 : bg = bg2) (h2 : tc = tc2) (h3 : nm = nm2) (h4 : th = th2) (h5 : pages = pages2) :
    downloadPDF pw ph bg tc nm th pages = downloadPDF pw ph bg2 tc2 nm2 th2 pages2 := by
  subst h1 h2 h3 h4 h5
  rfl

theorem assemble_deterministic_witness :
    downloadPDF 210 297 "#f5f5f0" "#282828" "Aaru" "Dinosaurs" [defaultPage] =
      downloadPDF 210 297 "#f5f5f0" "#282828" "Aaru" "Dinosaurs" [defaultPage] :=
  assemble_deterministic 210 297 "#f5f5f0" "#282828" "Aaru" "Dinosaurs"
    "#f5f5f0" "#282828" "Aaru" "Dinosaurs" [defaultPage] [defaultPage]
    rfl rfl rfl rfl rfl

theorem assemble_document_structure_witness :
    ((downloadPDF 210 297 "#f5f5f0" "#282828" "Aaru" "Dinosaurs" []).1.length =
      List.length ([] : List GeneratedPage) + 1) ∧
    ((downloadPDF 210 297 "#f5f5f0" "#282828" "Aaru" "Dinosaurs" [] : List (List DrawCmd) × String).1.getD 0 [] =
      coverCmds 210 297 (hexToRgb "#f5f5f0") (hexToRgb "#282828") "Aaru" "Dinosaurs" []) ∧
    (∀ c ∈ (downloadPDF 210 297 "#f5f5f0" "#282828" "Aaru" "Dinosaurs" []
        : List (List DrawCmd) × String).1.getD 0 [], c.isImage = false) :=
  ⟨(assemble_document_structure 210 297 "#f5f5f0" "#282828" "Aaru" "Dinosaurs" []).1,
   (assemble_document_structure 210 297 "#f5f5f0" "#282828" "Aaru" "Dinosaurs" []).2.1,
   (assemble_document_structure 210 297 "#f5f5f0" "#282828" "Aaru" "Dinosaurs" []).2.2.2 rfl⟩

theorem hexVal_le_15 (c : Char) (v : Nat) (h : hexVal c = some v) : v ≤ 15 := by
  unfold hexVal at h
  cases hf : hexDigitValues.find? (fun p => p.fst == c) with
  | none => rw [hf] at h; simp at h
  | some pr =>
    rw [hf] at h
    simp only [Option.map_some', Option.some.injEq] at h
    have hmem := List.mem_of_find?_eq_some hf
    have hall : ∀ p ∈ hexDigitValues, p.snd ≤ 15 := by decide
    have := hall pr hmem
    omega

theorem parseInt16_pair (a b : Char) (va vb : Nat)
    (ha : hexVal a = some va) (hb : hexVal b = some vb) :
    parseInt16 (String.mk [a, b]) = some (va * 16 + vb) := by
  have hlist : (String.mk [a, b]).toList = [a, b] := rfl
  unfold parseInt16
  rw [hlist]
  dsimp only
  rw [ha]
  dsimp only
  unfold parseIntCore16
  rw [ha]
  dsimp only
  unfold parseIntCore16
  rw [hb]
  dsimp only
  unfold parseIntCore16
  norm_num

theorem hexToRgb_valid (c1 c2 c3 c4 c5 c6 : Char) (v1 v2 v3 v4 v5 v6 : Nat)
    (h1 : hexVal c1 = some v1) (h2 : hexVal c2 = some v2)
    (h3 : hexVal c3 = some v3) (h4 : hexVal c4 = some v4)
    (h5 : hexVal c5 = some v5) (h6 : hexVal c6 = some v6) :
    hexToRgb (String.mk ['#', c1, c2, c3, c4, c5, c6]) =
      (some (v1 * 16 + v2), some (v3 * 16 + v4), some (v5 * 16 + v6)) := by
  have e1 : jsSlice (String.mk ['#', c1, c2, c3, c4, c5, c6]) 1 3 = String.mk [c1, c2] := rfl
  have e2 : jsSlice (String.mk ['#', c1, c2, c3, c4, c5, c6]) 3 5 = String.mk [c3, c4] := rfl
  have e3 : jsSlice (String.mk ['#', c1, c2, c3, c4, c5, c6]) 5 7 = String.mk [c5, c6] := rfl
  unfold hexToRgb
  rw [e1, e2, e3, parseInt16_pair c1 c2 v1 v2 h1 h2, parseInt16_pair c3 c4 v3 v4 h3 h4,
    parseInt16_pair c5 c6 v5 v6 h5 h6]

/-- C10: for any `#rrggbb` string of hex digit pairs, `hexToRgb` returns the
three 8-bit components (each at most 255), and in the assembled document
the cover's background fill carries exactly the components of the chosen
background color while both title text lines carry exactly the components
of the chosen text color. -/
theorem hexToRgb_cover_colors (c1 c2 c3 c4 c5 c6 d1 d2 d3 d4 d5 d6 : Char)
    (v1 v2 v3 v4 v5 v6 w1 w2 w3 w4 w5 w6 : Nat)
    (h1 : hexVal c1 = some v1) (h2 : hexVal c2 = some v2)
    (h3 : hexVal c3 = some v3) (h4 : hexVal c4 = some v4)
    (h5 : hexVal c5 = some v5) (h6 : hexVal c6 = some v6)
    (g1 : hexVal d1 = some w1) (g2 : hexVal d2 = some w2)
    (g3 : hexVal d3 = some w3) (g4 : hexVal d4 = some w4)
    (g5 : hexVal d5 = some w5) (g6 : hexVal d6 = some w6)
    (pw ph : ℚ) (nm th : String) (pages : List GeneratedPage) :
    hexToRgb (String.mk ['#', c1, c2, c3, c4, c5, c6]) =
      (some (v1 * 16 + v2), some (v3 * 16 + v4), some (v5 * 16 + v6)) ∧
    (v1 * 16 + v2 ≤ 255 ∧ v3 * 16 + v4 ≤ 255 ∧ v5 * 16 + v6 ≤ 255) ∧
    hexToRgb (String.mk ['#', d1, d2, d3, d4, d5, d6]) =
      (some (w1 * 16 + w2), some (w3 * 16 + w4), some (w5 * 16 + w6)) ∧
    (w1 * 16 + w2 ≤ 255 ∧ w3 * 16 + w4 ≤ 255 ∧ w5 * 16 + w6 ≤ 255) ∧
    ((downloadPDF pw ph (String.mk ['#', c1, c2, c3, c4, c5, c6])
        (String.mk ['#', d1, d2, d3, d4, d5, d6]) nm th pages).1.getD 0 []).getD 0
        (DrawCmd.fillRect 0 0 0 0 (none, none, none)) =
      DrawCmd.fillRect 0 0 pw ph
        (some (v1 * 16 + v2), some (v3 * 16 + v4), some (v5 * 16 + v6)) ∧
    ((downloadPDF pw ph (String.mk ['#', c1, c2, c3, c4, c5, c6])
        (String.mk ['#', d1, d2, d3, d4, d5, d6]) nm th pages).1.getD 0 []).getD 1
        (DrawCmd.fillRect 0 0 0 0 (none, none, none)) =
      DrawCmd.text (nm ++ "\x27s") (pw / 2) 80 32
        (some (w1 * 16 + w2), some (w3 * 16 + w4), some (w5 * 16 + w6)) none true ∧
    ((downloadPDF pw ph (String.mk ['#', c1, c2, c3, c4, c5, c6])
        (String.mk ['#', d1, d2, d3, d4, d5, d6]) nm th pages).1.getD 0 []).getD 2
        (DrawCmd.fillRect 0 0 0 0 (none, none, none)) =
      DrawCmd.text "Coloring Book" (pw / 2) 105 48
        (some (w1 * 16 + w2), some (w3 * 16 + w4), some (w5 * 16 + w6)) none true := by
  have hbg := hexToRgb_valid c1 c2 c3 c4 c5 c6 v1 v2 v3 v4 v5 v6 h1 h2 h3 h4 h5 h6
  have htc := hexToRgb_valid d1 d2 d3 d4 d5 d6 w1 w2 w3 w4 w5 w6 g1 g2 g3 g4 g5 g6
  have b1 := hexVal_le_15 c1 v1 h1
  have b2 := hexVal_le_15 c2 v2 h2
  have b3 := hexVal_le_15 c3 v3 h3
  have b4 := hexVal_le_15 c4 v4 h4
  have b5 := hexVal_le_15 c5 v5 h5
  have b6 := hexVal_le_15 c6 v6 h6
  have b7 := hexVal_le_15 d1 w1 g1
  have b8 := hexVal_le_15 d2 w2 g2
  have b9 := hexVal_le_15 d3 w3 g3
  have b10 := hexVal_le_15 d4 w4 g4
  have b11 := hexVal_le_15 d5 w5 g5
  have b12 := hexVal_le_15 d6 w6 g6
  refine ⟨hbg, ⟨by omega, by omega, by omega⟩, htc, ⟨by omega, by omega, by omega⟩, ?_, ?_, ?_⟩
  · simp [downloadPDF, coverCmds, hbg, htc]
  · simp [downloadPDF, coverCmds, hbg, htc]
  · simp [downloadPDF, coverCmds, hbg, htc]

theorem hexToRgb_cover_colors_witness :
    hexToRgb (String.mk ['#', 'f', '5', 'f', '5', 'f', '0']) =
      (some (15 * 16 + 5), some (15 * 16 + 5), some (15 * 16 + 0)) ∧
    (15 * 16 + 5 ≤ 255 ∧ 15 * 16 + 5 ≤ 255 ∧ 15 * 16 + 0 ≤ 255) ∧
    hexToRgb (String.mk ['#', '2', '8', '2', '8', '2', '8']) =
      (some (2 * 16 + 8), some (2 * 16 + 8), some (2 * 16 + 8)) ∧
    (2 * 16 + 8 ≤ 255 ∧ 2 * 16 + 8 ≤ 255 ∧ 2 * 16 + 8 ≤ 255) ∧
    ((downloadPDF 210 297 (String.mk ['#', 'f', '5', 'f', '5', 'f', '0'])
        (String.mk ['#', '2', '8', '2', '8', '2', '8']) "Aaru" "Dinosaurs" []).1.getD 0 []).getD 0
        (DrawCmd.fillRect 0 0 0 0 (none, none, none)) =
      DrawCmd.fillRect 0 0 210 297
        (some (15 * 16 + 5), some (15 * 16 + 5), some (15 * 16 + 0)) ∧
    ((downloadPDF 210 297 (String.mk ['#', 'f', '5', 'f', '5', 'f', '0'])
        (String.mk ['#', '2', '8', '2', '8', '2', '8']) "Aaru" "Dinosaurs" []).1.getD 0 []).getD 1
        (DrawCmd.fillRect 0 0 0 0 (none, none, none)) =
      DrawCmd.text ("Aaru" ++ "\x27s") (210 / 2) 80 32
        (some (2 * 16 + 8), some (2 * 16 + 8), some (2 * 16 + 8)) none true ∧
    ((downloadPDF 210 297 (String.mk ['#', 'f', '5', 'f', '5', 'f', '0'])
        (String.mk ['#', '2', '8', '2', '8', '2', '8']) "Aaru" "Dinosaurs" []).1.getD 0 []).getD 2
        (DrawCmd.fillRect 0 0 0 0 (none, none, none)) =
      DrawCmd.text "Coloring Book" (210 / 2) 105 48
        (some (2 * 16 + 8), some (2 * 16 + 8), some (2 * 16 + 8)) none true :=
  hexToRgb_cover_colors 'f' '5' 'f' '5' 'f' '0' '2' '8' '2' '8' '2' '8'
    15 5 15 5 15 0 2 8 2 8 2 8
    rfl rfl rfl rfl rfl rfl rfl rfl rfl rfl rfl rfl
    210 297 "Aaru" "Dinosaurs" []
